import Mathlib

/-!
Shallow embedding of `src/backend/chat/moderation/chat-moderation-manager.js`
(Firebot chat moderation core): the moderation dispatcher `moderateMessage`,
the worker supervisor (`startModerationService`, `stopService`, the worker
error handler), the banned-word list handlers, and the `load` default
backfill.  External collaborators (role resolver, permit command, viewer
database, Extended_Pictographic table, worker liveness) are modelled as an
explicit environment record; observable side effects (deleteMessage,
sendChatMessage, worker postMessage) are collected in an effect list, and a
thrown TypeError (rejected promise) is recorded in a `crashed` flag.
-/

namespace ChatModeration

/-- JS `\w` character class (ASCII word character, no `u` flag on the regex). -/
def isWordChar (c : Char) : Bool :=
  ('a' ≤ c && c ≤ 'z') || ('A' ≤ c && c ≤ 'Z') || ('0' ≤ c && c ≤ '9') || c == '_'

/-- Test for the URL regex `/[\w]{2,}[.][\w]{2,}/gi` of line 146: the string
contains a literal dot with at least two word characters immediately before it
and at least two immediately after it.  (`{2,}` is satisfied by any run of
length ≥ 2, so a match exists exactly when such a five-character window
exists; the `i` flag is vacuous for `\w` and the regex is freshly constructed
per call, so the `g` flag carries no state.) -/
def urlTestAux : List Char → Bool
  | a :: b :: '.' :: d :: e :: rest =>
    (isWordChar a && isWordChar b && isWordChar d && isWordChar e)
      || urlTestAux (b :: '.' :: d :: e :: rest)
  | _ :: rest => urlTestAux rest
  | [] => false

def urlRegexTest (s : String) : Bool :=
  urlTestAux s.data

/-- JS `String.prototype.replace` with a string pattern: replace the first
occurrence only. -/
def listReplaceFirst (s pat rep : List Char) : List Char :=
  match s with
  | [] => []
  | c :: rest =>
    if pat.isPrefixOf (c :: rest) then rep ++ (c :: rest).drop pat.length
    else c :: listReplaceFirst rest pat rep

def replaceFirst (s pat rep : String) : String :=
  String.mk (listReplaceFirst s.data pat.data rep.data)

/-- JS `String.prototype.toLowerCase`, modelled as the per-character case
mapping over the string's code points (the banned-word texts are ASCII). -/
def jsToLowerCase (s : String) : String :=
  String.mk (s.data.map Char.toLower)

/-! ## Data model (§3 of the settings object literal, lines 13 - 34) -/

structure BannedWordListSettings where
  enabled : Bool
deriving DecidableEq, Repr

structure EmoteLimitSettings where
  enabled : Bool
  max : Nat
deriving DecidableEq, Repr

structure ViewTimeSettings where
  enabled : Bool
  viewTimeInHours : Nat
deriving DecidableEq, Repr

/-- `urlModeration` sub-object.  `viewTime` is `Option` because
`moderateMessage` guards it with `settings.viewTime && settings.viewTime.enabled`. -/
structure UrlModerationSettings where
  enabled : Bool
  viewTime : Option ViewTimeSettings
  outputMessage : String
deriving DecidableEq, Repr

structure ChatModerationSettings where
  bannedWordList : BannedWordListSettings
  emoteLimit : EmoteLimitSettings
  urlModeration : UrlModerationSettings
  exemptRoles : List String
deriving DecidableEq, Repr

structure BannedWordEntry where
  text : String
deriving DecidableEq, Repr

structure ChatMessagePart where
  type : String
  text : Option String
deriving DecidableEq, Repr

structure ChatMessage where
  id : String
  username : String
  rawText : String
  roles : List String
  parts : List ChatMessagePart
deriving DecidableEq, Repr

structure Viewer where
  minutesInChannel : Nat
deriving DecidableEq, Repr

/-- Observable side effects of the dispatcher. -/
inductive Effect where
  | deleteMessage (messageId : String)
  | sendChatMessage (text : String)
  | workerPost (message : String) (messageId : String) (scanForBannedWords : Bool)
deriving DecidableEq, Repr

def isDeleteEffect : Effect → Bool
  | .deleteMessage _ => true
  | _ => false

def isSendEffect : Effect → Bool
  | .sendChatMessage _ => true
  | _ => false

def isWorkerPostEffect : Effect → Bool
  | .workerPost _ _ _ => true
  | _ => false

/-- External collaborators consumed by `moderateMessage`:
`rolesManager.userIsInRole`, `permitCommand.hasTemporaryPermission`,
`viewerDB.getUserByUsername` (returning null for an unknown user),
the Unicode `Extended_Pictographic` table used by `countEmojis`,
and whether `moderationService != null` at the postMessage on line 181. -/
structure Env where
  userIsInRole : String → List String → List String → Bool
  hasTemporaryPermission : String → Bool
  getUserByUsername : String → Option Viewer
  pictographic : Char → Bool
  workerRunning : Bool

/-- Result of one `moderateMessage` dispatch: the effects performed, and
whether the async function rejected with a TypeError (`crashed`). -/
structure ModerationResult where
  effects : List Effect
  crashed : Bool
deriving DecidableEq, Repr

/-- `countEmojis` (lines 101 - 104): number of `\p{Extended_Pictographic}`
code points in the string (`(str || '')` guards an absent text field). -/
def countEmojis (pict : Char → Bool) (s : Option String) : Nat :=
  (((s.getD "").data).filter pict).length

/-- Emote-part count of line 132. -/
def emoteCount (m : ChatMessage) : Nat :=
  (m.parts.filter (fun p => p.type == "emote")).length

/-- Emoji count over text parts, lines 133 - 135. -/
def emojiCount (pict : Char → Bool) (m : ChatMessage) : Nat :=
  (m.parts.filter (fun p => p.type == "text")).foldl
    (fun acc part => acc + countEmojis pict part.text) 0

/-- Outcome of one policy stage: either the function `return`s at this stage
(with the effects performed so far and a crash flag), or control falls
through to the next stage. -/
inductive StageOut where
  | halted (effects : List Effect) (crashed : Bool)
  | passed (effects : List Effect)
deriving DecidableEq, Repr

/-- Emote-limit stage, lines 131 - 140: runs when `emoteLimit.enabled` and
`!!emoteLimit.max` (a JS number is truthy exactly when nonzero); deletes and
returns when emote+emoji count strictly exceeds `max`. -/
def emoteStage (env : Env) (settings : ChatModerationSettings) (m : ChatMessage) : StageOut :=
  if settings.emoteLimit.enabled && settings.emoteLimit.max != 0 then
    if emoteCount m + emojiCount env.pictographic m > settings.emoteLimit.max then
      .halted [Effect.deleteMessage m.id] false
    else
      .passed []
  else
    .passed []

/-- Lines 171 - 176: delete the message, then, if the (already
`{viewTime}`-interpolated) output message is a nonempty string, interpolate
`{userName}` and send it.  Control then falls through to the worker post. -/
def deleteAndWarn (m : ChatMessage) (outputMessage : String) : List Effect :=
  Effect.deleteMessage m.id ::
    (if outputMessage != "" then
      [Effect.sendChatMessage (replaceFirst outputMessage "{userName}" m.username)]
    else [])

/-- URL stage, lines 142 - 177.  Early `return`s: temporary permit, no regex
match, or (view-time gating enabled) viewer hours ≥ configured minimum.  The
view-time branch dereferences `viewer.minutesInChannel` without a null check,
so an unknown user crashes the dispatch (`halted [] true`).  `viewerViewTime
>= minimumViewTime` with `viewerViewTime = minutesInChannel / 60` is the
exact comparison `minutesInChannel ≥ 60 * viewTimeInHours`. -/
def urlStage (env : Env) (settings : ChatModerationSettings) (m : ChatMessage) : StageOut :=
  if settings.urlModeration.enabled then
    if env.hasTemporaryPermission m.username then .halted [] false
    else if !(urlRegexTest m.rawText) then .halted [] false
    else
      let s := settings.urlModeration
      match s.viewTime with
      | some vt =>
        if vt.enabled then
          match env.getUserByUsername m.username with
          | none => .halted [] true
          | some viewer =>
            if 60 * vt.viewTimeInHours ≤ viewer.minutesInChannel then .halted [] false
            else
              .passed (deleteAndWarn m
                (replaceFirst s.outputMessage "{viewTime}" (toString vt.viewTimeInHours)))
        else
          .passed (deleteAndWarn m s.outputMessage)
      | none =>
        .passed (deleteAndWarn m s.outputMessage)
  else
    .passed []

/-- The unconditional `moderationService.postMessage` of lines 181 - 189:
`moderationService` is dereferenced without a null check, so when no worker
is running this line throws a TypeError and the async function rejects. -/
def workerPostTail (env : Env) (settings : ChatModerationSettings) (m : ChatMessage) :
    ModerationResult :=
  if env.workerRunning then
    ⟨[Effect.workerPost m.rawText m.id settings.bannedWordList.enabled], false⟩
  else
    ⟨[], true⟩

/-- `moderateMessage` (lines 110 - 191).  Null message: return.  All three
policy toggles disabled: return.  An exempt author leaves the local
`moderateMessage` flag false, skipping the entire block of lines 128 - 190
(emote stage, URL stage, and the worker post).  Otherwise the stages run in
order, each early `return` ending the dispatch. -/
def moderateMessage (env : Env) (settings : ChatModerationSettings)
    (msg : Option ChatMessage) : ModerationResult :=
  match msg with
  | none => ⟨[], false⟩
  | some m =>
    if !settings.bannedWordList.enabled && !settings.emoteLimit.enabled
        && !settings.urlModeration.enabled then
      ⟨[], false⟩
    else if env.userIsInRole m.username m.roles settings.exemptRoles then
      ⟨[], false⟩
    else
      match emoteStage env settings m with
      | .halted effs c => ⟨effs, c⟩
      | .passed effs1 =>
        match urlStage env settings m with
        | .halted effs2 c => ⟨effs1 ++ effs2, c⟩
        | .passed effs2 =>
          let tail := workerPostTail env settings m
          ⟨effs1 ++ effs2 ++ tail.effects, tail.crashed⟩

/-! ## Worker supervisor (lines 44 - 99) -/

/-- Messages posted to the moderation worker. -/
inductive WorkerMsg where
  | bannedWordsUpdate (words : List String)
  | moderateMessageTask (message : String) (messageId : String) (scanForBannedWords : Bool)
deriving DecidableEq, Repr

/-- Supervisor-side state: `moderationService` (null when no worker),
a fresh-id counter and the history of spawned workers (so "no second worker"
is observable), the messages posted so far, and the banned-word list the
module would push on start. -/
structure SupervisorState where
  moderationService : Option Nat
  nextWorkerId : Nat
  spawned : List Nat
  posted : List (Nat × WorkerMsg)
  bannedWords : List BannedWordEntry
deriving DecidableEq, Repr

/-- `getBannedWordsList` (lines 36 - 39): flatten the entries to their texts. -/
def getBannedWordsList (words : List BannedWordEntry) : List String :=
  words.map (fun w => w.text)

/-- `startModerationService` (lines 46 - 91): `if (moderationService != null)
return;`, otherwise spawn a fresh worker, wire its handlers, and immediately
post the current flattened banned-word list. -/
def startModerationService (st : SupervisorState) : SupervisorState :=
  if st.moderationService.isSome then st
  else
    { st with
      moderationService := some st.nextWorkerId
      nextWorkerId := st.nextWorkerId + 1
      spawned := st.spawned ++ [st.nextWorkerId]
      posted := st.posted ++
        [(st.nextWorkerId, WorkerMsg.bannedWordsUpdate (getBannedWordsList st.bannedWords))] }

/-- `stopService` (lines 93 - 99): terminate and null the reference when a
worker exists, otherwise do nothing. -/
def stopService (st : SupervisorState) : SupervisorState :=
  if st.moderationService.isSome then { st with moderationService := none }
  else st

/-- The worker `error` handler (lines 72 - 77): log, `unref`, null the
reference; the restart call is commented out. -/
def workerFault (st : SupervisorState) : SupervisorState :=
  { st with moderationService := none }

/-! ## Banned-word list handlers (lines 222 - 235) -/

/-- `addBannedWords` handler: `bannedWords.words.concat(words)` — plain list
append, duplicates allowed. -/
def addBannedWords (words newWords : List BannedWordEntry) : List BannedWordEntry :=
  words ++ newWords

/-- `removeBannedWord` handler (lines 227 - 230):
`words.filter(w => w.text.toLowerCase() !== wordText)` — only the stored
entry's text is lowercased; the query is compared verbatim. -/
def removeBannedWord (words : List BannedWordEntry) (wordText : String) :
    List BannedWordEntry :=
  words.filter (fun w => jsToLowerCase w.text != wordText)

/-! ## `load` default backfill (lines 244 - 283) -/

/-- Persisted url-moderation sub-object: nested fields may be absent. -/
structure StoredUrlModeration where
  enabled : Bool
  viewTime : Option ViewTimeSettings
  outputMessage : Option String
deriving DecidableEq, Repr

/-- Persisted settings document: any sub-object may be absent (`none`
models JS null/undefined, matching the `== null` checks in `load`). -/
structure StoredSettings where
  bannedWordList : Option BannedWordListSettings
  emoteLimit : Option EmoteLimitSettings
  urlModeration : Option StoredUrlModeration
  exemptRoles : Option (List String)
deriving DecidableEq, Repr

/-- The backfill `load` applies to a non-empty persisted settings object
(lines 249 - 265): `exemptRoles`, `emoteLimit` and `urlModeration` are
replaced by defaults when `== null`; no other field is touched. -/
def loadBackfill (s : StoredSettings) : StoredSettings :=
  let s := if s.exemptRoles.isNone then { s with exemptRoles := some [] } else s
  let s := if s.emoteLimit.isNone then
      { s with emoteLimit := some ⟨false, 10⟩ } else s
  if s.urlModeration.isNone then
    { s with urlModeration := some ⟨false, some ⟨false, 0⟩, some ""⟩ }
  else s

/-- Well-formedness the spec claims for the post-load settings: every
sub-object present, including `bannedWordList` and the `viewTime` nested in
`urlModeration`. -/
def wellFormedStored (s : StoredSettings) : Bool :=
  s.bannedWordList.isSome && s.emoteLimit.isSome && s.exemptRoles.isSome &&
    (match s.urlModeration with
     | some u => u.viewTime.isSome && u.outputMessage.isSome
     | none => false)

/-! ## Concrete fixtures used by counterexamples and witnesses -/

/-- Role resolver that checks actual membership of a user role in the
candidate roles, no permit, unknown viewer, empty pictographic table,
worker running. -/
def envRoleCheck : Env :=
  ⟨fun _ userRoles candidates => userRoles.any (fun r => candidates.contains r),
   fun _ => false, fun _ => none, fun _ => false, true⟩

/-- Never-exempt environment with no viewer data and a running worker. -/
def envNonExempt : Env :=
  ⟨fun _ _ _ => false, fun _ => false, fun _ => none, fun _ => false, true⟩

/-- Never-exempt environment where the author holds a temporary URL permit. -/
def envPermit : Env :=
  ⟨fun _ _ _ => false, fun _ => true, fun _ => none, fun _ => false, true⟩

/-- Never-exempt environment whose viewer directory knows every user with 60
minutes in channel (1 hour). -/
def envViewer60 : Env :=
  ⟨fun _ _ _ => false, fun _ => false, fun _ => some ⟨60⟩, fun _ => false, true⟩

def settingsAllOn : ChatModerationSettings :=
  ⟨⟨true⟩, ⟨true, 10⟩, ⟨true, some ⟨false, 0⟩, ""⟩, ["mod"]⟩

def settingsBannedOnly : ChatModerationSettings :=
  ⟨⟨true⟩, ⟨false, 10⟩, ⟨false, some ⟨false, 0⟩, ""⟩, []⟩

def settingsUrlViewTime : ChatModerationSettings :=
  ⟨⟨false⟩, ⟨false, 10⟩, ⟨true, some ⟨true, 5⟩, ""⟩, []⟩

def settingsTemplate : ChatModerationSettings :=
  ⟨⟨true⟩, ⟨false, 10⟩, ⟨true, some ⟨true, 5⟩, "Need {viewTime}h, {userName}"⟩, []⟩

def settingsEmoteMax1 : ChatModerationSettings :=
  ⟨⟨false⟩, ⟨true, 1⟩, ⟨false, some ⟨false, 0⟩, ""⟩, []⟩

def settingsAllOff : ChatModerationSettings :=
  ⟨⟨false⟩, ⟨false, 10⟩, ⟨false, some ⟨false, 0⟩, ""⟩, []⟩

def settingsUrlOnly : ChatModerationSettings :=
  ⟨⟨true⟩, ⟨false, 10⟩, ⟨true, none, ""⟩, []⟩

def msgExemptMod : ChatMessage :=
  ⟨"m1", "mallory", "go to example.com", ["mod"], []⟩

def msgPlain : ChatMessage :=
  ⟨"m2", "bob", "hello there", [], []⟩

def msgCarolUrl : ChatMessage :=
  ⟨"m3", "carol", "visit example.com now", [], []⟩

def msgAliceUrl : ChatMessage :=
  ⟨"m4", "alice", "visit example.com now", [], []⟩

def msgTwoEmotes : ChatMessage :=
  ⟨"m5", "dave", "Kappa Kappa", [], [⟨"emote", none⟩, ⟨"emote", none⟩]⟩

def msgEveUrl : ChatMessage :=
  ⟨"m6", "eve", "see example.com", [], []⟩

/-- A supervisor state with a live worker (id 0). -/
def stRunning : SupervisorState := ⟨some 0, 1, [0], [], []⟩

/-- A supervisor state with no worker. -/
def stIdle : SupervisorState := ⟨none, 1, [0], [], []⟩

/-- Environment as seen by `moderateMessage` right after the worker error
handler ran on `stRunning`: `moderationService` is null. -/
def envAfterFault : Env :=
  ⟨fun _ _ _ => false, fun _ => false, fun _ => none, fun _ => false,
   (workerFault stRunning).moderationService.isSome⟩

/-- Persisted settings document missing only `bannedWordList`. -/
def storedMissingBannedList : StoredSettings :=
  ⟨none, some ⟨false, 10⟩, some ⟨false, some ⟨false, 0⟩, some ""⟩, some []⟩

/-- Persisted settings document with every sub-object missing. -/
def storedEmpty : StoredSettings := ⟨none, none, none, none⟩

/-! ## Helper lemmas -/

theorem toDigitsCore_ne_nil (b : Nat) :
    ∀ (fuel n : Nat) (ds : List Char), (0 < fuel ∨ ds ≠ []) →
      Nat.toDigitsCore b fuel n ds ≠ [] := by
  intro fuel
  induction fuel with
  | zero =>
    intro n ds h
    rcases h with h | h
    · omega
    · simpa [Nat.toDigitsCore] using h
  | succ f ih =>
    intro n ds _
    simp only [Nat.toDigitsCore]
    split
    · simp
    · exact ih _ _ (Or.inr (by simp))

theorem natToString_ne_empty (n : Nat) : toString n ≠ "" := by
  have h := toDigitsCore_ne_nil 10 (n + 1) n [] (Or.inl (Nat.succ_pos n))
  intro hc
  have hd := congrArg String.data hc
  apply h
  simpa [toString, Nat.repr, Nat.toDigits, List.asString] using hd

theorem listReplaceFirst_ne_nil (s pat rep : List Char) (hs : s ≠ []) (hrep : rep ≠ []) :
    listReplaceFirst s pat rep ≠ [] := by
  cases s with
  | nil => exact absurd rfl hs
  | cons c rest =>
    simp only [listReplaceFirst]
    split
    · simp [hrep]
    · simp

theorem replaceFirst_ne_empty (s pat rep : String) (hs : s ≠ "") (hrep : rep ≠ "") :
    replaceFirst s pat rep ≠ "" := by
  have hs' : s.data ≠ [] := fun h => hs (by cases s with | mk d => cases h; rfl)
  have hrep' : rep.data ≠ [] := fun h => hrep (by cases rep with | mk d => cases h; rfl)
  have hmain := listReplaceFirst_ne_nil s.data pat.data rep.data hs' hrep'
  intro h
  exact hmain (by simpa [replaceFirst] using congrArg String.data h)

/-! ## Claim theorems -/

/-- Claim C8: if all three policy toggles (`bannedWordList.enabled`,
`emoteLimit.enabled`, `urlModeration.enabled`) are false, `moderateMessage`
returns immediately with zero side effects and no crash. -/
theorem spec_c8 (env : Env) (settings : ChatModerationSettings) (m : ChatMessage)
    (h1 : settings.bannedWordList.enabled = false)
    (h2 : settings.emoteLimit.enabled = false)
    (h3 : settings.urlModeration.enabled = false) :
    moderateMessage env settings (some m) = ⟨[], false⟩ := by
  simp [moderateMessage, h1, h2, h3]

/-- Witness for C8 at a concrete all-off configuration. -/
theorem spec_c8_witness :
    moderateMessage envRoleCheck settingsAllOff (some msgPlain) = ⟨[], false⟩ :=
  spec_c8 envRoleCheck settingsAllOff msgPlain rfl rfl rfl

/-- Claim C9: supervisor lifecycle idempotence — `start()` while a worker is
running is a no-op (no second worker spawned, state unchanged), `stop()` with
no worker running is a no-op, and a second `stop()` after any `stop()` is a
no-op. -/
theorem spec_c9 :
    (∀ st : SupervisorState, st.moderationService.isSome = true →
      startModerationService st = st) ∧
    (∀ st : SupervisorState, st.moderationService = none → stopService st = st) ∧
    (∀ st : SupervisorState, stopService (stopService st) = stopService st) := by
  refine ⟨fun st h => ?_, fun st h => ?_, fun st => ?_⟩
  · simp [startModerationService, h]
  · simp [stopService, h]
  · cases h : st.moderationService <;> simp [stopService, h]

/-- Witness for C9 on concrete running and idle supervisor states. -/
theorem spec_c9_witness :
    startModerationService stRunning = stRunning ∧
    stopService stIdle = stIdle ∧
    stopService (stopService stRunning) = stopService stRunning :=
  ⟨spec_c9.1 stRunning rfl, spec_c9.2.1 stIdle rfl, spec_c9.2.2 stRunning⟩

/-- Counterexample to claim C1 as stated: for an author holding an exempt
role with all policy toggles enabled, `moderateMessage` performs no effects
at all — in particular no `moderateMessage` task is posted to the Word
Scanner Worker, contradicting "the message is still forwarded to the Word
Scanner Worker". -/
theorem spec_c1_counterexample :
    envRoleCheck.userIsInRole msgExemptMod.username msgExemptMod.roles
      settingsAllOn.exemptRoles = true ∧
    settingsAllOn.bannedWordList.enabled = true ∧
    moderateMessage envRoleCheck settingsAllOn (some msgExemptMod) = ⟨[], false⟩ := by
  decide

/-- Claim C1 (amended): for every chat message whose author holds a role in
`exemptRoles` (with at least one policy toggle enabled), `moderateMessage`
never calls `deleteMessage` — it performs no side effects at all, and in
particular the message is NOT forwarded to the Word Scanner Worker:
exemption skips the whole moderation block, banned-word forwarding
included. -/
theorem spec_c1_amended (env : Env) (settings : ChatModerationSettings) (m : ChatMessage)
    (htoggle : (settings.bannedWordList.enabled || settings.emoteLimit.enabled
      || settings.urlModeration.enabled) = true)
    (hexempt : env.userIsInRole m.username m.roles settings.exemptRoles = true) :
    moderateMessage env settings (some m) = ⟨[], false⟩ := by
  have h1 : (!settings.bannedWordList.enabled && !settings.emoteLimit.enabled
      && !settings.urlModeration.enabled) = false := by
    cases hb : settings.bannedWordList.enabled <;>
      cases he : settings.emoteLimit.enabled <;>
        cases hu : settings.urlModeration.enabled <;> simp_all
  simp [moderateMessage, h1, hexempt]

/-- Witness for C1 (amended) at a concrete exempt author. -/
theorem spec_c1_amended_witness :
    moderateMessage envRoleCheck settingsAllOn (some msgExemptMod) = ⟨[], false⟩ :=
  spec_c1_amended envRoleCheck settingsAllOn msgExemptMod rfl (by decide)

/-- Claim C2 — the code's actual behavior at the claimed scenario: after the
worker error handler runs, `moderationService` is null, and a message that
reaches the worker hand-off makes `moderateMessage` dereference null
(`moderationService.postMessage`), so the dispatch crashes (the async
function rejects) instead of silently dropping the task. -/
theorem spec_c2_code_behavior :
    (workerFault stRunning).moderationService = none ∧
    moderateMessage envAfterFault settingsBannedOnly (some msgPlain) = ⟨[], true⟩ := by
  decide

/-- Claim C3 — the code's actual behavior at the claimed scenario: with URL
moderation and view-time gating enabled and a viewer directory that does not
know the author, `moderateMessage` dereferences the null lookup result
(`viewer.minutesInChannel`), so the dispatch crashes instead of treating the
miss as "no exemption data available". -/
theorem spec_c3_code_behavior :
    envNonExempt.getUserByUsername msgCarolUrl.username = none ∧
    urlRegexTest msgCarolUrl.rawText = true ∧
    moderateMessage envNonExempt settingsUrlViewTime (some msgCarolUrl) = ⟨[], true⟩ := by
  decide

/-- Counterexample to claim C4 as stated: adding `"foo"` then removing
`"Foo"` does NOT leave the word list empty — the handler lowercases only the
stored entry's text and compares the query verbatim, so `"foo"` survives. -/
theorem spec_c4_counterexample :
    removeBannedWord (addBannedWords [] [⟨"foo"⟩]) "Foo" = [⟨"foo"⟩] ∧
    removeBannedWord (addBannedWords [] [⟨"foo"⟩]) "Foo" ≠ [] := by
  decide

/-- Claim C4 (amended): `removeBannedWord` removes exactly the entries whose
lowercased text equals the removal query verbatim; consequently adding
`"Foo"` then removing `"foo"` leaves the word list empty, but the symmetric
direction does not hold. -/
theorem spec_c4_amended :
    (∀ (words : List BannedWordEntry) (q : String) (w : BannedWordEntry),
      w ∈ removeBannedWord words q ↔ (w ∈ words ∧ jsToLowerCase w.text ≠ q)) ∧
    removeBannedWord (addBannedWords [] [⟨"Foo"⟩]) "foo" = [] := by
  constructor
  · intro words q w
    simp [removeBannedWord, List.mem_filter]
  · decide

/-- Witness for C4 (amended): the membership characterization applied at a
concrete list and query, plus the concrete add/remove pair. -/
theorem spec_c4_amended_witness :
    ((⟨"Bar"⟩ : BannedWordEntry) ∈ removeBannedWord [⟨"Bar"⟩] "bar" ↔
      ((⟨"Bar"⟩ : BannedWordEntry) ∈ ([⟨"Bar"⟩] : List BannedWordEntry) ∧
        jsToLowerCase (BannedWordEntry.mk "Bar").text ≠ "bar")) ∧
    removeBannedWord (addBannedWords [] [⟨"Foo"⟩]) "foo" = [] :=
  ⟨spec_c4_amended.1 [⟨"Bar"⟩] "bar" ⟨"Bar"⟩, spec_c4_amended.2⟩

/-- Counterexample to claim C5 as stated: `load`'s backfill never touches
`bannedWordList`, so a persisted settings document missing only that
sub-object stays missing it after the backfill — the post-load settings are
not well-formed. -/
theorem spec_c5_counterexample :
    (loadBackfill storedMissingBannedList).bannedWordList = none ∧
    wellFormedStored (loadBackfill storedMissingBannedList) = false := by
  decide

/-- Claim C5 (amended): after the load backfill, `exemptRoles`, `emoteLimit`
and `urlModeration` are always present (missing ones are replaced wholesale
by the defaults enabled=false, max=10, viewTime disabled, empty output
message), but `bannedWordList` is left exactly as persisted, and an existing
`urlModeration` is kept as-is — its nested `viewTime` is not backfilled. -/
theorem spec_c5_amended (s : StoredSettings) :
    (loadBackfill s).exemptRoles.isSome = true ∧
    (loadBackfill s).emoteLimit.isSome = true ∧
    (loadBackfill s).urlModeration.isSome = true ∧
    (loadBackfill s).bannedWordList = s.bannedWordList ∧
    (s.exemptRoles = none → (loadBackfill s).exemptRoles = some []) ∧
    (s.emoteLimit = none → (loadBackfill s).emoteLimit = some ⟨false, 10⟩) ∧
    (s.urlModeration = none →
      (loadBackfill s).urlModeration = some ⟨false, some ⟨false, 0⟩, some ""⟩) ∧
    (∀ u, s.urlModeration = some u → (loadBackfill s).urlModeration = some u) := by
  rcases s with ⟨bwl, el, um, er⟩
  cases el <;> cases um <;> cases er <;> simp [loadBackfill]

/-- Witness for C5 (amended) at the persisted document missing every
sub-object: the three backfilled fields get their defaults, while
`bannedWordList` stays absent. -/
theorem spec_c5_amended_witness :
    (loadBackfill storedEmpty).exemptRoles = some [] ∧
    (loadBackfill storedEmpty).emoteLimit = some ⟨false, 10⟩ ∧
    (loadBackfill storedEmpty).urlModeration = some ⟨false, some ⟨false, 0⟩, some ""⟩ ∧
    (loadBackfill storedEmpty).bannedWordList = none :=
  ⟨(spec_c5_amended storedEmpty).2.2.2.2.1 rfl,
   (spec_c5_amended storedEmpty).2.2.2.2.2.1 rfl,
   (spec_c5_amended storedEmpty).2.2.2.2.2.2.1 rfl,
   (spec_c5_amended storedEmpty).2.2.2.1⟩

/-- Claim C6: for a non-exempt author with the emote limit enabled and a
positive max, when the count of "emote" parts plus pictographic-emoji
occurrences in text parts strictly exceeds max, `moderateMessage` makes
exactly one `deleteMessage` call and stops — the URL stage and the
banned-word worker hand-off are both skipped. -/
theorem spec_c6 (env : Env) (settings : ChatModerationSettings) (m : ChatMessage)
    (hexempt : env.userIsInRole m.username m.roles settings.exemptRoles = false)
    (henabled : settings.emoteLimit.enabled = true)
    (hmax : 0 < settings.emoteLimit.max)
    (hcount : emoteCount m + emojiCount env.pictographic m > settings.emoteLimit.max) :
    moderateMessage env settings (some m) = ⟨[Effect.deleteMessage m.id], false⟩ := by
  have h1 : (!settings.bannedWordList.enabled && !settings.emoteLimit.enabled
      && !settings.urlModeration.enabled) = false := by
    simp [henabled]
  have hcond : (settings.emoteLimit.enabled && settings.emoteLimit.max != 0) = true := by
    simp [henabled]
    omega
  have hstage : emoteStage env settings m = .halted [Effect.deleteMessage m.id] false := by
    simp [emoteStage, hcond, hcount]
  simp [moderateMessage, h1, hexempt, hstage]

/-- Witness for C6: two emote parts against max = 1. -/
theorem spec_c6_witness :
    moderateMessage envNonExempt settingsEmoteMax1 (some msgTwoEmotes) =
      ⟨[Effect.deleteMessage "m5"], false⟩ :=
  spec_c6 envNonExempt settingsEmoteMax1 msgTwoEmotes rfl rfl (by decide) (by decide)

/-- Claim C10: for a non-exempt author with URL moderation enabled, a
temporary URL permit or a rawText with no URL-pattern match makes
`moderateMessage` return early with no effects at all — in particular the
message is never posted to the Word Scanner Worker, even when
`bannedWordList.enabled` is true. -/
theorem spec_c10 (env : Env) (settings : ChatModerationSettings) (m : ChatMessage)
    (hexempt : env.userIsInRole m.username m.roles settings.exemptRoles = false)
    (hemote : emoteStage env settings m = .passed [])
    (hurl : settings.urlModeration.enabled = true)
    (hstop : env.hasTemporaryPermission m.username = true ∨
      urlRegexTest m.rawText = false) :
    moderateMessage env settings (some m) = ⟨[], false⟩ := by
  have h1 : (!settings.bannedWordList.enabled && !settings.emoteLimit.enabled
      && !settings.urlModeration.enabled) = false := by
    simp [hurl]
  have hstage : urlStage env settings m = .halted [] false := by
    unfold urlStage
    rcases hstop with h | h
    · simp [hurl, h]
    · cases hp : env.hasTemporaryPermission m.username
      · simp [hurl, hp, h]
      · simp [hurl, hp]
  simp [moderateMessage, h1, hexempt, hemote, hstage]

/-- Witness for C10: a permitted author with banned-word scanning enabled;
no worker task is posted. -/
theorem spec_c10_witness :
    moderateMessage envPermit settingsUrlOnly (some msgEveUrl) = ⟨[], false⟩ :=
  spec_c10 envPermit settingsUrlOnly msgEveUrl rfl (by decide) rfl (Or.inl rfl)

/-- Claim C7: for a non-exempt, non-permitted message matching the URL
pattern, with URL moderation and view-time gating enabled and the viewer's
hours below the configured minimum, `moderateMessage` makes exactly one
`deleteMessage` call and, when an output-message template is configured,
exactly one `sendChatMessage` call with `{viewTime}` replaced by the
configured minimum hours and `{userName}` replaced by the author's name. -/
theorem spec_c7 (env : Env) (settings : ChatModerationSettings) (m : ChatMessage)
    (vt : ViewTimeSettings) (viewer : Viewer)
    (hexempt : env.userIsInRole m.username m.roles settings.exemptRoles = false)
    (hemote : emoteStage env settings m = .passed [])
    (hurl : settings.urlModeration.enabled = true)
    (hpermit : env.hasTemporaryPermission m.username = false)
    (hmatch : urlRegexTest m.rawText = true)
    (hvt : settings.urlModeration.viewTime = some vt)
    (hvte : vt.enabled = true)
    (hviewer : env.getUserByUsername m.username = some viewer)
    (hhours : viewer.minutesInChannel < 60 * vt.viewTimeInHours) :
    (moderateMessage env settings (some m)).effects.filter isDeleteEffect =
      [Effect.deleteMessage m.id] ∧
    (settings.urlModeration.outputMessage ≠ "" →
      (moderateMessage env settings (some m)).effects.filter isSendEffect =
        [Effect.sendChatMessage (replaceFirst (replaceFirst
          settings.urlModeration.outputMessage "{viewTime}"
          (toString vt.viewTimeInHours)) "{userName}" m.username)]) := by
  have h1 : (!settings.bannedWordList.enabled && !settings.emoteLimit.enabled
      && !settings.urlModeration.enabled) = false := by
    simp [hurl]
  have hnotle : ¬(60 * vt.viewTimeInHours ≤ viewer.minutesInChannel) := by omega
  have hstage : urlStage env settings m = .passed (deleteAndWarn m
      (replaceFirst settings.urlModeration.outputMessage "{viewTime}"
        (toString vt.viewTimeInHours))) := by
    unfold urlStage
    simp [hurl, hpermit, hmatch, hvt, hvte, hviewer, hnotle]
  have hres : moderateMessage env settings (some m) =
      ⟨[] ++ (deleteAndWarn m (replaceFirst settings.urlModeration.outputMessage
          "{viewTime}" (toString vt.viewTimeInHours))
        ++ (workerPostTail env settings m).effects),
        (workerPostTail env settings m).crashed⟩ := by
    simp [moderateMessage, h1, hexempt, hemote, hstage]
  rw [hres]
  constructor
  · cases hw : env.workerRunning <;>
      cases ho : (replaceFirst settings.urlModeration.outputMessage "{viewTime}"
          (toString vt.viewTimeInHours) != "") <;>
        simp_all [deleteAndWarn, workerPostTail, isDeleteEffect, isSendEffect]
  · intro hout
    have hout2 : replaceFirst settings.urlModeration.outputMessage "{viewTime}"
        (toString vt.viewTimeInHours) ≠ "" :=
      replaceFirst_ne_empty _ _ _ hout (natToString_ne_empty _)
    cases hw : env.workerRunning <;>
      simp_all [deleteAndWarn, workerPostTail, isDeleteEffect, isSendEffect]

/-- Witness for C7: template `"Need {viewTime}h, {userName}"`, minimum 5
hours, author alice with 60 minutes in channel — one deletion and the sent
text `"Need 5h, alice"`. -/
theorem spec_c7_witness :
    (moderateMessage envViewer60 settingsTemplate (some msgAliceUrl)).effects.filter
      isDeleteEffect = [Effect.deleteMessage "m4"] ∧
    (moderateMessage envViewer60 settingsTemplate (some msgAliceUrl)).effects.filter
      isSendEffect = [Effect.sendChatMessage "Need 5h, alice"] := by
  have h := spec_c7 envViewer60 settingsTemplate msgAliceUrl ⟨true, 5⟩ ⟨60⟩
    rfl (by decide) rfl rfl (by decide) rfl rfl rfl (by decide)
  refine ⟨h.1, ?_⟩
  rw [h.2 (by decide)]
  decide

end ChatModeration
